import Mathlib

/-!
Verification of the fault-tolerant acquisition-and-persistence core of
src/scraper.py: the Extractor (parse_market_from_html), the Durable Writer
(save_json_atomic), the Snapshot Store (latest_data under latest_data_lock),
the Acquisition Loop (scrape_loop) with its exponential backoff, the
placeholder updater (update_data_loop), and the query endpoint (get_latest).

The embedding is shallow: external collaborators (Selenium, BeautifulSoup,
the filesystem, Flask) appear only at their boundary.  Raw markup is modelled
as the list of per-row text blocks that BeautifulSoup soup.select(ROW_SELECTOR)
followed by row.get_text(separator = newline) would produce; the filesystem is
modelled as the contents of the primary, backup and temporary files; a
fallible step is modelled by an explicit fault outcome injected at the
corresponding program point.
-/

namespace Scraper

/-! ## Python string primitives

parse_market_from_html uses str.strip and str.split of Python.  The Lean
builtin string functions do not reduce in the kernel, so the two operations
are implemented here directly over the character list of the string, with
the semantics of the Python originals (split on every newline character;
strip whitespace from both ends). -/

/-- Split a character list at every newline character, Python text.split
on a single newline separator: n separators yield n+1 pieces. -/
def splitNlAux : List Char → List Char → List (List Char)
  | [], cur => [cur.reverse]
  | c :: rest, cur =>
    if c = '\n' then cur.reverse :: splitNlAux rest []
    else splitNlAux rest (c :: cur)

/-- Python text.split of a string on the newline separator. -/
def pySplitNewline (s : String) : List String :=
  (splitNlAux s.data []).map String.mk

/-- Python str.strip on a character list: drop whitespace from both ends. -/
def pyStripList (l : List Char) : List Char :=
  ((l.dropWhile Char.isWhitespace).reverse.dropWhile Char.isWhitespace).reverse

/-- Python str.strip. -/
def pyStrip (s : String) : String :=
  String.mk (pyStripList s.data)

/-! ## Data model -/

/-- One parsed market row, the dict built at src/scraper.py line 120:
pair, price and change_24h string fields. -/
structure Record where
  pair : String
  price : String
  change_24h : String
deriving DecidableEq, Repr

/-! ## Extractor: parse_market_from_html (src/scraper.py lines 104-123)

The BeautifulSoup boundary: the html argument is modelled as the list of
text blocks, one per selected row, that row.get_text with a newline
separator returns.  Everything after that boundary is translated directly:
strip the row text, split it on newlines, strip each piece, drop empty
pieces, keep the first three as a Record when at least three remain, and
stop early when the MAX_ROWS cap is truthy and already reached. -/

/-- Lines 114-115: text = row.get_text.strip, then
parts = the stripped nonempty pieces of text.split on newline. -/
def rowParts (text : String) : List String :=
  ((pySplitNewline (pyStrip text)).map pyStrip).filter (fun p => p ≠ "")

/-- Line 121 guard, Python: if MAX_ROWS and len(results) >= MAX_ROWS.
An integer is truthy in Python exactly when it is nonzero, so a cap of 0
never triggers the guard. -/
def capBreak (maxRows : Option Int) (n : Nat) : Bool :=
  match maxRows with
  | none => false
  | some m => decide (m ≠ 0) && decide (m ≤ (n : Int))

/-- The for loop of lines 112-122 with its results accumulator: when a row
has at least three parts, append the Record made of parts 0, 1, 2 (lines
116-120); then the early break of lines 121-122. -/
def parseRowsAux (maxRows : Option Int) : List String → List Record → List Record
  | [], results => results
  | row :: rest, results =>
    let parts := rowParts row
    let results1 :=
      if 3 ≤ parts.length then
        results ++ [⟨parts.getD 0 "", parts.getD 1 "", parts.getD 2 ""⟩]
      else results
    if capBreak maxRows results1.length then results1
    else parseRowsAux maxRows rest results1

/-- parse_market_from_html, parameterised by the MAX_ROWS configuration
constant (line 43 sets it to None in the source). -/
def parse_market_from_html (maxRows : Option Int) (rows : List String) : List Record :=
  parseRowsAux maxRows rows []

/-- Line 43: MAX_ROWS = None. -/
def MAX_ROWS : Option Int := none

/-! ## Durable Writer: save_json_atomic (src/scraper.py lines 55-82)

The filesystem is modelled by the contents of the three files the writer
touches: the primary file at path, the backup file at backup_path, and the
temporary file from tempfile.mkstemp.  File contents are modelled as the
snapshot value they serialise (json.dump is deterministic, so equality of
serialised text is equality of snapshots).  For the temporary file only
presence matters to the claims, so it is a Bool.

Each fallible step of the writer is a possible fault point; a run of the
writer is parameterised by which step, if any, raises.  The placement in
the source matters: tempfile.mkstemp at line 64 runs before the try block,
so a fault there propagates to the caller, while every fault inside the
try block of lines 65-75 is caught at line 76, after which the cleanup of
lines 78-82 removes the temporary file.  The backup copy of lines 70-74
has its own inner try, so its fault is absorbed and the rename proceeds. -/

/-- On-disk state seen by the Durable Writer. -/
structure FS where
  primary : Option (List Record)
  backup : Option (List Record)
  tmpPresent : Bool
deriving DecidableEq, Repr

/-- Which step of one save_json_atomic run raises, if any. -/
inductive WriterFault
  /-- every step succeeds -/
  | noFault
  /-- tempfile.mkstemp raises (line 64, outside the try block) -/
  | atMkstemp
  /-- json.dump, flush or fsync raises (lines 66-69) -/
  | atWriteTmp
  /-- shutil.copy2 to the backup raises (line 72, caught at line 73) -/
  | atBackupCopy
  /-- os.replace raises (line 75) -/
  | atRename
deriving DecidableEq, Repr

/-- Result of one save_json_atomic run: the filesystem afterwards and
whether an exception propagated out of the function. -/
structure SaveResult where
  fs : FS
  raised : Bool
deriving DecidableEq, Repr

/-- save_json_atomic(path, data, backup_path): withBackup records whether a
backup_path argument was given (scrape_loop always passes one). -/
def save_json_atomic (fault : WriterFault) (fs : FS) (data : List Record)
    (withBackup : Bool) : SaveResult :=
  -- lines 60-61: if not data: return
  if data.isEmpty then ⟨fs, false⟩
  -- line 64: tempfile.mkstemp, before the try block, so a fault propagates
  else if fault = WriterFault.atMkstemp then ⟨fs, true⟩
  else
    -- the temporary file now exists in the primary directory
    let fs1 : FS := ⟨fs.primary, fs.backup, true⟩
    -- lines 66-69: write, flush, fsync; a fault lands in the except clause
    -- of lines 76-82, which removes the temporary file
    if fault = WriterFault.atWriteTmp then ⟨⟨fs1.primary, fs1.backup, false⟩, false⟩
    else
      -- lines 70-74: if backup_path and os.path.exists(path), copy the
      -- current primary to the backup; a fault here is caught by the inner
      -- except at line 73 and the write proceeds
      let fs2 : FS :=
        if withBackup = true ∧ fs1.primary.isSome = true ∧ fault ≠ WriterFault.atBackupCopy
        then ⟨fs1.primary, fs1.primary, true⟩
        else fs1
      -- line 75: os.replace(tmp_path, path); a fault lands in the except
      -- clause, which removes the temporary file
      if fault = WriterFault.atRename then ⟨⟨fs2.primary, fs2.backup, false⟩, false⟩
      else ⟨⟨some data, fs2.backup, false⟩, false⟩

/-- The faults under which the final rename of line 75 executes and
completes: no fault at all, or only the absorbed backup-copy fault. -/
def renameCompletes : WriterFault → Bool
  | WriterFault.noFault => true
  | WriterFault.atBackupCopy => true
  | _ => false

/-- A sequence of fault-free save_json_atomic runs with a backup path, as
scrape_loop issues them on consecutive successful iterations. -/
def writeSeq (fs : FS) : List (List Record) → FS
  | [] => fs
  | d :: ds => writeSeq (save_json_atomic WriterFault.noFault fs d true).fs ds

/-! ## Snapshot Store: latest_data (src/scraper.py lines 48-50)

The store starts as the empty list (line 48).  scrape_loop assigns it the
parse result only when that result is truthy (lines 153-155) and leaves it
alone otherwise; its except handler never assigns it.  update_data_loop
(lines 208-220) assigns a three-key dict of timestamp, price and volume.
The Python truthiness test used on the store (if latest_data) is false only
for the empty list; a three-key dict is always truthy. -/

/-- A value the latest_data cell can hold: the Record list written by
scrape_loop, or the simulated dict written by update_data_loop (price is
round(random.uniform(50000, 60000), 2), a decimal number; volume is
random.randint(1000, 5000)). -/
inductive StoreVal
  | recs : List Record → StoreVal
  | sim : String → ℚ → Int → StoreVal
deriving DecidableEq

/-- Python truthiness of a store value: an empty list is falsy, a nonempty
list is truthy, a dict with three keys is truthy. -/
def StoreVal.pyTruthy : StoreVal → Bool
  | StoreVal.recs rs => !rs.isEmpty
  | StoreVal.sim _ _ _ => true

/-- One store assignment step taken by either update loop. -/
inductive StoreStep
  /-- a scrape_loop iteration whose Extractor returned the given list
  (lines 153-167: the store is assigned only when the list is truthy) -/
  | scrapeParsed : List Record → StoreStep
  /-- a scrape_loop iteration that landed in the except handler of lines
  175-195, which never assigns the store -/
  | scrapeError : StoreStep
  /-- an update_data_loop iteration (lines 212-218), which assigns the
  simulated dict unconditionally -/
  | simUpdate : String → ℚ → Int → StoreStep

/-- Effect of one step on the store contents, read off the source. -/
def storeStep : StoreVal → StoreStep → StoreVal
  | s, StoreStep.scrapeParsed parsed =>
      if parsed.isEmpty then s else StoreVal.recs parsed
  | s, StoreStep.scrapeError => s
  | _, StoreStep.simUpdate t p v => StoreVal.sim t p v

/-- The store after any interleaving of update-loop steps. -/
def runStoreSteps (s : StoreVal) (steps : List StoreStep) : StoreVal :=
  steps.foldl storeStep s

/-! ## Backoff state of scrape_loop (src/scraper.py lines 135, 153-158, 193-194)

backoff starts at 1.0 (line 135).  A successful (truthy) parse resets it to
1.0 (line 158).  An empty parse leaves it alone.  The except handler sleeps
min(backoff, 30) and then doubles backoff (lines 193-194).  Since backoff
is only ever 1.0 times a power of two, it is modelled as a natural
number. -/

/-- Outcome of one scrape_loop iteration as the backoff logic sees it. -/
inductive IterResult
  /-- the body raised and the except handler of lines 175-195 ran -/
  | failure
  /-- the body completed with this Extractor result -/
  | parsed : List Record → IterResult
deriving DecidableEq

/-- An iteration outcome that is not a truthy extraction: a failure, or an
empty parse (which neither resets nor advances the backoff). -/
def noSuccess : IterResult → Bool
  | IterResult.failure => true
  | IterResult.parsed rs => rs.isEmpty

/-- Run the backoff logic over a sequence of iteration outcomes from the
given backoff value; returns the final backoff value and the sequence of
backoff sleep delays, in order (poll-interval sleeps are not backoff
delays and are not recorded). -/
def backoffRun : ℕ → List IterResult → ℕ × List ℕ
  | b, [] => (b, [])
  | b, IterResult.failure :: os =>
    let r := backoffRun (2 * b) os
    (r.1, min b 30 :: r.2)
  | b, IterResult.parsed rs :: os =>
    if rs.isEmpty then backoffRun b os else backoffRun 1 os

/-! ## Lock discipline of the persist sites (src/scraper.py lines 153-167, 189-192)

scrape_loop touches latest_data_lock and the disk at three sites.  Each
site is recorded as the sequence of lock and disk events its code performs,
read off the with-block structure of the source. -/

/-- A lock or disk event at a persist site. -/
inductive LockEv
  | acquire
  | release
  | diskWrite
deriving DecidableEq, Repr

/-- Whether some disk write in the trace happens while the lock depth is
positive. -/
def writesUnderLock : ℕ → List LockEv → Bool
  | _, [] => false
  | d, LockEv.acquire :: tr => writesUnderLock (d + 1) tr
  | d, LockEv.release :: tr => writesUnderLock (d - 1) tr
  | d, LockEv.diskWrite :: tr => decide (0 < d) || writesUnderLock d tr

/-- Lines 153-157, truthy parse: with latest_data_lock: latest_data =
parsed (acquire, assign, release), then save_json_atomic outside the
with block. -/
def successPathTrace : List LockEv :=
  [LockEv.acquire, LockEv.release, LockEv.diskWrite]

/-- Lines 160-167, empty parse: with latest_data_lock: to_save =
latest_data.copy (acquire, copy, release), then save_json_atomic outside
the with block only if the copy is truthy. -/
def emptyPathTrace (storeTruthy : Bool) : List LockEv :=
  if storeTruthy then [LockEv.acquire, LockEv.release, LockEv.diskWrite]
  else [LockEv.acquire, LockEv.release]

/-- Lines 189-192, except handler: with latest_data_lock: if latest_data:
save_json_atomic(...) — the disk write runs inside the with block, before
the release. -/
def errorPathTrace (storeTruthy : Bool) : List LockEv :=
  if storeTruthy then [LockEv.acquire, LockEv.diskWrite, LockEv.release]
  else [LockEv.acquire, LockEv.release]

/-! ## Query endpoint: get_latest (src/scraper.py lines 259-268) -/

/-- Body of a GET /latest response. -/
inductive LatestBody
  /-- the jsonify error payload of line 263 -/
  | errorBody : String → LatestBody
  /-- the jsonify payload of lines 264-268: timestamp, count, data -/
  | okBody : String → ℕ → List Record → LatestBody
deriving DecidableEq

/-- An HTTP response: status code and body. -/
structure HttpResponse where
  status : ℕ
  body : LatestBody
deriving DecidableEq

/-- get_latest: under the lock, an empty store yields 503 with the error
payload; a nonempty store yields 200 (the Flask default) with timestamp,
count = len(latest_data) and data = latest_data.  now stands for the
time.strftime result. -/
def get_latest (now : String) (latest_data : List Record) : HttpResponse :=
  if latest_data.isEmpty then ⟨503, LatestBody.errorBody "No data yet"⟩
  else ⟨200, LatestBody.okBody now latest_data.length latest_data⟩

/-! ## Acquisition Loop: scrape_loop (src/scraper.py lines 128-203)

One iteration of the while body (lines 138-195) is modelled as a function
from the loop state and the outcome of every external call the iteration
may make to Except Unit of the next state: an ok result means the
iteration ended normally and the loop goes round again, an error result
means an exception propagated out of the loop body (past the except
clause of line 175) and the loop died.

Exception routing, read off the source: anything raised inside the try
block of lines 138-173 is caught at line 175 and handled by lines
176-195.  The scroll of line 146 sits in its own inner try whose except
passes, so a scroll failure is absorbed where it happens.  Inside the
except handler itself nothing is protected: the save_json_atomic call at
line 191 is the one call there that can raise (its tempfile.mkstemp runs
before its internal try), and a raise there escapes the loop. -/

/-- Outcome of every external call one scrape_loop iteration may make. -/
structure IterOutcome where
  /-- create_driver (line 141) raises -/
  createFails : Bool
  /-- driver.get (line 142) raises -/
  getFails : Bool
  /-- driver.execute_script (line 146) raises; absorbed by the inner
  try/except pass of lines 145-148 -/
  scrollFails : Bool
  /-- driver.page_source (line 150) raises -/
  fetchFails : Bool
  /-- BeautifulSoup parsing (line 151) raises -/
  parseFails : Bool
  /-- the markup rows handed to the Extractor when parsing succeeds -/
  rows : List String
  /-- fault outcome of the save_json_atomic call in the try block
  (line 156 or line 164) -/
  mainSaveFault : WriterFault
  /-- fault outcome of the save_json_atomic call in the except handler
  (line 191) -/
  handlerSaveFault : WriterFault

/-- State carried across scrape_loop iterations: whether a webdriver is
live, the latest_data cell, the on-disk files, and the backoff value. -/
structure LoopState where
  driver : Bool
  latest_data : List Record
  fs : FS
  backoff : ℕ
deriving DecidableEq

/-- The except handler, lines 175-195: tear down the driver (lines
178-186, all absorbed), then under the lock re-save a truthy store (lines
189-192; a raise from save_json_atomic at line 191 is unprotected and
escapes), then sleep min(backoff, 30) and double backoff (lines
193-194). -/
def scrapeExceptHandler (fault : WriterFault) (s : LoopState) :
    Except Unit LoopState :=
  let s1 : LoopState := ⟨false, s.latest_data, s.fs, s.backoff⟩
  if s1.latest_data.isEmpty then
    Except.ok ⟨s1.driver, s1.latest_data, s1.fs, 2 * s1.backoff⟩
  else
    let r := save_json_atomic fault s1.fs s1.latest_data true
    if r.raised then Except.error ()
    else Except.ok ⟨s1.driver, s1.latest_data, r.fs, 2 * s1.backoff⟩

/-- Lines 150-173: fetch the page source, parse it, and either take the
truthy-parse branch (lines 153-158: assign the store, save, reset
backoff) or the empty-parse branch (lines 159-167: copy the store, save
it if truthy); then the poll sleep of lines 170-173, which cannot
raise. -/
def scrapeIterFetch (o : IterOutcome) (s : LoopState) : Except Unit LoopState :=
  if o.fetchFails ∨ o.parseFails then scrapeExceptHandler o.handlerSaveFault s
  else
    let parsed := parse_market_from_html MAX_ROWS o.rows
    if parsed.isEmpty then
      let to_save := s.latest_data
      if to_save.isEmpty then Except.ok s
      else
        let r := save_json_atomic o.mainSaveFault s.fs to_save true
        if r.raised then
          scrapeExceptHandler o.handlerSaveFault ⟨s.driver, s.latest_data, r.fs, s.backoff⟩
        else Except.ok ⟨s.driver, s.latest_data, r.fs, s.backoff⟩
    else
      let s1 : LoopState := ⟨s.driver, parsed, s.fs, s.backoff⟩
      let r := save_json_atomic o.mainSaveFault s1.fs s1.latest_data true
      if r.raised then
        scrapeExceptHandler o.handlerSaveFault ⟨s1.driver, s1.latest_data, r.fs, s1.backoff⟩
      else Except.ok ⟨s1.driver, s1.latest_data, r.fs, 1⟩

/-- One iteration of the while body, lines 138-195.  With no driver, lines
139-143 create one and load the page (either step may raise into the
handler); with a live driver, the absorbed scroll of lines 144-148 runs;
then the fetch-parse-save part. -/
def scrapeIter (o : IterOutcome) (s : LoopState) : Except Unit LoopState :=
  if s.driver then scrapeIterFetch o s
  else if o.createFails then scrapeExceptHandler o.handlerSaveFault s
  else
    let s1 : LoopState := ⟨true, s.latest_data, s.fs, s.backoff⟩
    if o.getFails then scrapeExceptHandler o.handlerSaveFault s1
    else scrapeIterFetch o s1

/-- The while loop of line 137: iterate until the stop_event cancellation
signal is observed (modelled by the outcome list running out), unless an
iteration lets an exception escape. -/
def scrape_loop_run (s : LoopState) : List IterOutcome → Except Unit LoopState
  | [] => Except.ok s
  | o :: os =>
    match scrapeIter o s with
    | Except.error e => Except.error e
    | Except.ok s1 => scrape_loop_run s1 os

/-- The Record of the scenario in the spec. -/
def sampleRecord : Record :=
  ⟨"BTC", "50000", "+1%"⟩

/-! ## Theorems -/

/-- A nonempty list is not isEmpty. -/
lemma isEmpty_false_of_ne {α : Type} {l : List α} (h : l ≠ []) : l.isEmpty = false := by
  cases l with
  | nil => exact absurd rfl h
  | cons a as => rfl

/-- writeSeq distributes over append. -/
lemma writeSeq_append (fs : FS) (as bs : List (List Record)) :
    writeSeq fs (as ++ bs) = writeSeq (writeSeq fs as) bs := by
  induction as generalizing fs with
  | nil => rfl
  | cons a as ih => simp [writeSeq, ih]

/-- A fault-free save with a backup path writes the snapshot to the
primary, moves the old primary (when present) to the backup, and leaves
no temporary file. -/
lemma save_noFault_fs (fs : FS) (d : List Record) (hd : d.isEmpty = false) :
    (save_json_atomic WriterFault.noFault fs d true).fs =
      ⟨some d, if fs.primary.isSome = true then fs.primary else fs.backup, false⟩ := by
  simp [save_json_atomic, hd]
  split <;> simp_all

/-- Claim C2: for every non-empty snapshot and every fault at a step
before the final rename that aborts the writer, the primary file keeps
exactly its pre-write contents (in particular it stays absent if it was
absent) and no temporary file remains; whenever the final rename
completes (no fault, or only the absorbed backup-copy fault), the primary
file equals the new snapshot exactly and no temporary file remains. -/
theorem durable_writer_atomicity (fault : WriterFault) (fs : FS)
    (data : List Record) (withBackup : Bool)
    (hd : data ≠ []) (ht : fs.tmpPresent = false) :
    (renameCompletes fault = false →
        (save_json_atomic fault fs data withBackup).fs.primary = fs.primary ∧
        (save_json_atomic fault fs data withBackup).fs.tmpPresent = false) ∧
    (renameCompletes fault = true →
        (save_json_atomic fault fs data withBackup).fs.primary = some data ∧
        (save_json_atomic fault fs data withBackup).fs.tmpPresent = false) := by
  have hde : data.isEmpty = false := isEmpty_false_of_ne hd
  cases fault
  all_goals simp [save_json_atomic, renameCompletes, hde, ht]
  all_goals (split <;> simp)

/-- Witness for C2 at a concrete input: a write-step fault on a live
primary leaves the primary as it was and removes the temporary file. -/
theorem durable_writer_atomicity_witness :
    ([sampleRecord] : List Record) ≠ [] ∧
    (FS.mk (some []) none false).tmpPresent = false ∧
    ((renameCompletes WriterFault.atWriteTmp = false →
        (save_json_atomic WriterFault.atWriteTmp ⟨some [], none, false⟩
            [sampleRecord] true).fs.primary = some [] ∧
        (save_json_atomic WriterFault.atWriteTmp ⟨some [], none, false⟩
            [sampleRecord] true).fs.tmpPresent = false) ∧
     (renameCompletes WriterFault.atWriteTmp = true →
        (save_json_atomic WriterFault.atWriteTmp ⟨some [], none, false⟩
            [sampleRecord] true).fs.primary = some [sampleRecord] ∧
        (save_json_atomic WriterFault.atWriteTmp ⟨some [], none, false⟩
            [sampleRecord] true).fs.tmpPresent = false)) :=
  ⟨by decide, rfl,
    durable_writer_atomicity WriterFault.atWriteTmp ⟨some [], none, false⟩
      [sampleRecord] true (by decide) rfl⟩

/-- Claim C3: calling the Durable Writer with an empty snapshot is a
complete no-op for every fault outcome and every backup-path choice: the
filesystem is returned unchanged (no temporary file, no backup write, no
primary change) and nothing is raised. -/
theorem empty_snapshot_noop (fault : WriterFault) (fs : FS) (withBackup : Bool) :
    save_json_atomic fault fs [] withBackup = ⟨fs, false⟩ := by
  simp [save_json_atomic]

/-- Claim C4: after any two final fault-free writes of nonempty snapshots
d1 then d2 (preceded by any sequence of fault-free writes of nonempty
snapshots), the backup file holds exactly d1, the snapshot written
immediately prior to the most recent one, and the primary holds d2; and a
backup-copy fault still lets the primary write proceed. -/
theorem backup_correctness (fs : FS) (ds : List (List Record))
    (d1 d2 : List Record) (_hds : ∀ d ∈ ds, d ≠ []) (h1 : d1 ≠ []) (h2 : d2 ≠ []) :
    ((writeSeq fs (ds ++ [d1, d2])).backup = some d1 ∧
     (writeSeq fs (ds ++ [d1, d2])).primary = some d2) ∧
    (∀ (g : FS) (d : List Record), d ≠ [] →
      (save_json_atomic WriterFault.atBackupCopy g d true).fs.primary = some d) := by
  constructor
  · rw [writeSeq_append]
    have e1 := save_noFault_fs (writeSeq fs ds) d1 (isEmpty_false_of_ne h1)
    have e2 := save_noFault_fs (save_json_atomic WriterFault.noFault (writeSeq fs ds) d1 true).fs
      d2 (isEmpty_false_of_ne h2)
    simp [writeSeq, e1] at e2 ⊢
    simp [e2]
  · intro g d hd
    have hde : d.isEmpty = false := isEmpty_false_of_ne hd
    simp [save_json_atomic, hde]

/-- Witness for C4 at a concrete input: starting from empty disk, writing
snapshot [sampleRecord] and then [] ++ [sampleRecord, sampleRecord]
(three writes in all) leaves the backup holding the second snapshot and
the primary holding the third. -/
theorem backup_correctness_witness :
    (∀ d ∈ [[sampleRecord]], d ≠ ([] : List Record)) ∧
    ([sampleRecord, sampleRecord] : List Record) ≠ [] ∧
    ([sampleRecord] : List Record) ≠ [] ∧
    (((writeSeq ⟨none, none, false⟩
          ([[sampleRecord]] ++ [[sampleRecord, sampleRecord], [sampleRecord]])).backup =
        some [sampleRecord, sampleRecord] ∧
      (writeSeq ⟨none, none, false⟩
          ([[sampleRecord]] ++ [[sampleRecord, sampleRecord], [sampleRecord]])).primary =
        some [sampleRecord]) ∧
     ∀ (g : FS) (d : List Record), d ≠ [] →
        (save_json_atomic WriterFault.atBackupCopy g d true).fs.primary = some d) :=
  ⟨by decide, by decide, by decide,
    backup_correctness ⟨none, none, false⟩ [[sampleRecord]]
      [sampleRecord, sampleRecord] [sampleRecord] (by decide) (by decide) (by decide)⟩

/-- Claim C10: when the primary file does not exist at the start of a
Durable Writer run, the backup file is left untouched for every snapshot,
fault outcome, and backup-path choice. -/
theorem first_write_backup_untouched (fault : WriterFault) (fs : FS)
    (data : List Record) (withBackup : Bool) (h : fs.primary = none) :
    (save_json_atomic fault fs data withBackup).fs.backup = fs.backup := by
  by_cases hd : data.isEmpty <;> cases fault <;> simp [save_json_atomic, hd, h]

/-- Witness for C10 at a concrete input: a fault-free first write leaves
the absent backup absent. -/
theorem first_write_backup_untouched_witness :
    (FS.mk none none false).primary = none ∧
    (save_json_atomic WriterFault.noFault ⟨none, none, false⟩
        [sampleRecord] true).fs.backup = none :=
  ⟨rfl, first_write_backup_untouched WriterFault.noFault ⟨none, none, false⟩
    [sampleRecord] true rfl⟩

/-- Every store step keeps a truthy store truthy. -/
lemma storeStep_pyTruthy (s : StoreVal) (st : StoreStep)
    (h : s.pyTruthy = true) : (storeStep s st).pyTruthy = true := by
  cases st with
  | scrapeParsed p =>
    cases p with
    | nil => simpa [storeStep] using h
    | cons a as => simp [storeStep, StoreVal.pyTruthy]
  | scrapeError => simpa [storeStep] using h
  | simUpdate t p v => simp [storeStep, StoreVal.pyTruthy]

/-- Claim C1: once the Snapshot Store is truthy (holds at least one
Record, or the simulated dict), every interleaving of scrape_loop and
update_data_loop steps leaves it truthy — no step ever replaces it with
an empty sequence — and a scrape_loop step whose Extractor returned the
empty list leaves the store exactly unchanged. -/
theorem no_regress_invariant (init : StoreVal) (steps : List StoreStep)
    (h : init.pyTruthy = true) :
    (runStoreSteps init steps).pyTruthy = true ∧
    ∀ s : StoreVal, storeStep s (StoreStep.scrapeParsed []) = s := by
  constructor
  · induction steps generalizing init with
    | nil => exact h
    | cons st rest ih => exact ih _ (storeStep_pyTruthy init st h)
  · intro s
    rfl

/-- Witness for C1 at a concrete input: a store holding one Record stays
truthy across an empty parse, an error iteration, and a simulated
update. -/
theorem no_regress_invariant_witness :
    (StoreVal.recs [sampleRecord]).pyTruthy = true ∧
    ((runStoreSteps (StoreVal.recs [sampleRecord])
        [StoreStep.scrapeParsed [], StoreStep.scrapeError,
          StoreStep.simUpdate "t" 0 0]).pyTruthy = true ∧
      ∀ s : StoreVal, storeStep s (StoreStep.scrapeParsed []) = s) :=
  ⟨rfl, no_regress_invariant (StoreVal.recs [sampleRecord])
    [StoreStep.scrapeParsed [], StoreStep.scrapeError,
      StoreStep.simUpdate "t" 0 0] rfl⟩

/-- Over outcomes with no truthy extraction, the backoff delay sequence is
a chain under ≤ whose entries lie between min b 30 and 30. -/
lemma backoffRun_chain (os : List IterResult) : ∀ b : ℕ,
    (∀ o ∈ os, noSuccess o = true) →
    List.Chain' (· ≤ ·) (backoffRun b os).2 ∧
    ∀ d ∈ (backoffRun b os).2, min b 30 ≤ d ∧ d ≤ 30 := by
  induction os with
  | nil =>
    intro b _
    simp [backoffRun]
  | cons o rest ih =>
    intro b h
    have hrest : ∀ o ∈ rest, noSuccess o = true := by
      intro o ho
      exact h o (List.mem_cons_of_mem _ ho)
    cases o with
    | failure =>
      have hr := ih (2 * b) hrest
      have hmin : min b 30 ≤ min (2 * b) 30 := by omega
      simp only [backoffRun]
      constructor
      · refine List.chain'_cons'.mpr ⟨?_, hr.1⟩
        intro y hy
        exact le_trans hmin (hr.2 y (List.mem_of_mem_head? hy)).1
      · intro d hd
        rcases List.mem_cons.mp hd with hd | hd
        · subst hd
          exact ⟨le_refl _, by omega⟩
        · exact ⟨le_trans hmin (hr.2 d hd).1, (hr.2 d hd).2⟩
    | parsed rs =>
      have hrs : rs.isEmpty = true := by
        simpa [noSuccess] using h _ (List.mem_cons_self _ _)
      simp only [backoffRun, hrs, if_true]
      exact ih b hrest

/-- The delay sequence over k consecutive failures from backoff value b is
min (b * 2 ^ i) 30 for i = 0, ..., k - 1. -/
lemma backoffRun_failures (k : ℕ) : ∀ b : ℕ,
    (backoffRun b (List.replicate k IterResult.failure)).2 =
      (List.range k).map (fun i => min (b * 2 ^ i) 30) := by
  induction k with
  | zero =>
    intro b
    simp [backoffRun]
  | succ k ih =>
    intro b
    rw [List.replicate_succ]
    simp only [backoffRun]
    rw [ih (2 * b), List.range_succ_eq_map]
    simp only [List.map_cons, List.map_map, pow_zero, mul_one]
    refine congrArg (List.cons (min b 30)) ?_
    refine List.map_congr_left ?_
    intro i _
    have h2 : 2 * b * 2 ^ i = b * 2 ^ (i + 1) := by ring
    simp [Function.comp, h2]

/-- Claim C5 (backoff monotonicity): over any run of loop-body failures
with no intervening truthy extraction, the backoff sleep delays are
non-decreasing and at most 30; from the floor value 1, k consecutive
failures sleep exactly min (2 ^ i) 30 for i = 0, ..., k - 1 (so the run
starts at 1 and the internal value doubles after each failure); and a
single truthy extraction resets the backoff to the floor 1 for whatever
follows. -/
theorem backoff_monotonicity :
    (∀ (b : ℕ) (os : List IterResult), (∀ o ∈ os, noSuccess o = true) →
        List.Chain' (· ≤ ·) (backoffRun b os).2 ∧
        ∀ d ∈ (backoffRun b os).2, d ≤ 30) ∧
    (∀ k : ℕ, (backoffRun 1 (List.replicate k IterResult.failure)).2 =
        (List.range k).map (fun i => min (2 ^ i) 30)) ∧
    (∀ (b : ℕ) (rs : List Record) (os : List IterResult), rs ≠ [] →
        backoffRun b (IterResult.parsed rs :: os) = backoffRun 1 os) := by
  refine ⟨?_, ?_, ?_⟩
  · intro b os h
    exact ⟨(backoffRun_chain os b h).1, fun d hd => ((backoffRun_chain os b h).2 d hd).2⟩
  · intro k
    rw [backoffRun_failures k 1]
    simp
  · intro b rs os h
    simp [backoffRun, isEmpty_false_of_ne h]

/-- Witness for C5 at a concrete input: two consecutive failures from the
floor sleep 1 then 2, and a truthy parse resets backoff 8 to 1. -/
theorem backoff_monotonicity_witness :
    (∀ o ∈ [IterResult.failure, IterResult.failure], noSuccess o = true) ∧
    (List.Chain' (· ≤ ·)
        (backoffRun 1 [IterResult.failure, IterResult.failure]).2 ∧
      ∀ d ∈ (backoffRun 1 [IterResult.failure, IterResult.failure]).2, d ≤ 30) ∧
    ([sampleRecord] : List Record) ≠ [] ∧
    backoffRun 8 [IterResult.parsed [sampleRecord]] = backoffRun 1 [] :=
  ⟨by decide,
    backoff_monotonicity.1 1 [IterResult.failure, IterResult.failure] (by decide),
    by decide,
    backoff_monotonicity.2.2 8 [sampleRecord] [] (by decide)⟩

/-- Counterexample to claim C6 as stated: at the error-recovery persist
site of lines 189-192, with a truthy store, the disk write does execute
while latest_data_lock is held. -/
theorem lock_discipline_counterexample :
    ¬ writesUnderLock 0 (errorPathTrace true) = false := by
  decide

/-- Claim C6 as amended: on the truthy-parse persist site (lines 153-157)
and the empty-parse persist site (lines 160-167) the lock is released
before the disk write, and neither holds the lock during a write; but the
error-recovery persist site (lines 189-192) performs its disk write while
the lock is held whenever the store is truthy (with a falsy store it
takes no write at all). -/
theorem lock_discipline_amended :
    writesUnderLock 0 successPathTrace = false ∧
    (∀ t : Bool, writesUnderLock 0 (emptyPathTrace t) = false) ∧
    writesUnderLock 0 (errorPathTrace false) = false ∧
    writesUnderLock 0 (errorPathTrace true) = true := by
  refine ⟨by decide, ?_, by decide, by decide⟩
  intro t
  cases t <;> decide

/-- Claim C7: GET /latest answers 503 with the error payload exactly when
the store is empty, and otherwise 200 with the timestamp, the count equal
to the number of Records in the store, and the store contents as data. -/
theorem get_latest_contract (now : String) (store : List Record) :
    (store = [] →
      get_latest now store = ⟨503, LatestBody.errorBody "No data yet"⟩) ∧
    (store ≠ [] →
      get_latest now store = ⟨200, LatestBody.okBody now store.length store⟩) := by
  constructor
  · intro h
    subst h
    rfl
  · intro h
    simp [get_latest, isEmpty_false_of_ne h]

/-- Witness for C7 at concrete inputs: the empty store answers 503, the
one-Record store of the spec scenario answers 200 with count 1. -/
theorem get_latest_contract_witness :
    (([] : List Record) = [] ∧
      get_latest "t" [] = ⟨503, LatestBody.errorBody "No data yet"⟩) ∧
    (([sampleRecord] : List Record) ≠ [] ∧
      get_latest "t" [sampleRecord] =
        ⟨200, LatestBody.okBody "t" 1 [sampleRecord]⟩) :=
  ⟨⟨rfl, (get_latest_contract "t" []).1 rfl⟩,
    ⟨by decide, (get_latest_contract "t" [sampleRecord]).2 (by decide)⟩⟩

/-- With a positive cap n, the row loop never grows the accumulator past
n once the accumulator is below n: the break of lines 121-122 fires as
soon as the accumulator reaches n. -/
lemma parseRowsAux_length_le (n : Int) (hn : 0 < n) :
    ∀ (rows : List String) (acc : List Record), (acc.length : Int) < n →
      ((parseRowsAux (some n) rows acc).length : Int) ≤ n := by
  intro rows
  induction rows with
  | nil =>
    intro acc h
    simpa [parseRowsAux] using le_of_lt h
  | cons row rest ih =>
    intro acc h
    simp only [parseRowsAux]
    by_cases h3 : 3 ≤ (rowParts row).length
    · simp only [h3, if_true]
      have hlen : ((acc ++ [(⟨(rowParts row).getD 0 "", (rowParts row).getD 1 "",
          (rowParts row).getD 2 ""⟩ : Record)]).length : Int) = (acc.length : Int) + 1 := by
        simp
      by_cases hc : capBreak (some n) (acc ++ [(⟨(rowParts row).getD 0 "",
          (rowParts row).getD 1 "", (rowParts row).getD 2 ""⟩ : Record)]).length
      · simp only [hc, if_true]
        rw [hlen]
        omega
      · simp only [hc, if_false]
        apply ih
        have hnn : decide (n ≠ 0) = true := by
          simp
          omega
        have : ¬ n ≤ ((acc ++ [(⟨(rowParts row).getD 0 "", (rowParts row).getD 1 "",
            (rowParts row).getD 2 ""⟩ : Record)]).length : Int) := by
          intro hle
          apply hc
          simp only [capBreak, hnn, Bool.true_and]
          exact decide_eq_true hle
        rw [hlen] at this
        omega
    · simp only [h3, if_false]
      by_cases hc : capBreak (some n) acc.length
      · simp only [hc, if_true]
        omega
      · simp only [hc, if_false]
        exact ih acc h

/-- With no match in any row, the accumulator is returned unchanged. -/
lemma parseRowsAux_no_match (maxRows : Option Int) :
    ∀ (rows : List String) (acc : List Record),
      (∀ row ∈ rows, (rowParts row).length < 3) →
      parseRowsAux maxRows rows acc = acc := by
  intro rows
  induction rows with
  | nil =>
    intro acc _
    rfl
  | cons row rest ih =>
    intro acc h
    have h3 : ¬ 3 ≤ (rowParts row).length := by
      have := h row (List.mem_cons_self row rest)
      omega
    simp only [parseRowsAux, h3, if_false]
    by_cases hc : capBreak maxRows acc.length
    · simp only [hc, if_true]
    · simp only [hc, if_false]
      exact ih acc (fun r hr => h r (List.mem_cons_of_mem _ hr))

/-- Counterexample to claim C9 as stated: with the max-records cap
configured to the integer 0, the guard of line 121 (if MAX_ROWS and ...)
is falsy because the Python int 0 is falsy, so one well-formed row yields
one Record, exceeding the configured cap of 0. -/
theorem extractor_cap_counterexample :
    ¬ (((parse_market_from_html (some 0) ["A\nB\nC"]).length : Int) ≤ 0) := by
  decide

/-- Claim C9 as amended: the Extractor is a total function on the modelled
markup (it returns an ordered Record list for every input, by
construction), it returns the empty list when no row carries at least
three parts, and whenever the max-records cap is configured to a positive
integer n the returned list has at most n Records. -/
theorem extractor_total_and_cap :
    (∀ n : Int, 0 < n → ∀ rows : List String,
        ((parse_market_from_html (some n) rows).length : Int) ≤ n) ∧
    (∀ (maxRows : Option Int) (rows : List String),
        (∀ row ∈ rows, (rowParts row).length < 3) →
        parse_market_from_html maxRows rows = []) := by
  constructor
  · intro n hn rows
    exact parseRowsAux_length_le n hn rows [] (by simpa using hn)
  · intro maxRows rows h
    exact parseRowsAux_no_match maxRows rows [] h

/-- Witness for the amended C9 at concrete inputs: with cap 1 two
well-formed rows yield at most one Record, and a single malformed row
yields the empty list. -/
theorem extractor_total_and_cap_witness :
    ((0 : Int) < 1 ∧
      ((parse_market_from_html (some 1) ["A\nB\nC", "D\nE\nF"]).length : Int) ≤ 1) ∧
    ((∀ row ∈ ["x"], (rowParts row).length < 3) ∧
      parse_market_from_html none ["x"] = []) :=
  ⟨⟨by decide, extractor_total_and_cap.1 1 (by decide) ["A\nB\nC", "D\nE\nF"]⟩,
    ⟨by decide, extractor_total_and_cap.2 none ["x"] (by decide)⟩⟩

/-- Claim C8 is violated by the code: when a fetch failure sends a
truthy-store iteration into the except handler of lines 175-195 and the
re-persist call of line 191 raises at its tempfile.mkstemp step (which
runs before the internal try of save_json_atomic, so the exception leaves
save_json_atomic), nothing in the handler catches it, so the exception
propagates out of the loop body and the loop terminates without any
cancellation signal. -/
theorem scrape_loop_exception_escape :
    scrapeIter
        ⟨false, false, false, true, false, [], WriterFault.noFault, WriterFault.atMkstemp⟩
        ⟨true, [sampleRecord], ⟨some [sampleRecord], none, false⟩, 1⟩ =
      Except.error () ∧
    scrape_loop_run ⟨true, [sampleRecord], ⟨some [sampleRecord], none, false⟩, 1⟩
        [⟨false, false, false, true, false, [], WriterFault.noFault, WriterFault.atMkstemp⟩] =
      Except.error () := by
  constructor <;> rfl

end Scraper
